import Mathlib

/-!
Shallow embedding of the multi-tenant access-control core of the
church-management backend: the data model (accounts/models.py,
members/models.py), the authentication resolver
(accounts/backends.py `ChurchEmailBackend.authenticate`,
accounts/serializers.py `LoginSerializer.validate`), the tenant-scoped
list endpoints and the provisioning / role-assignment / deletion /
conversion operations (accounts/views.py, accounts/serializers.py,
members/views.py, members/serializers.py).

Conventions:
* opaque UUID keys are modelled as `Nat`; `uuid4` fresh-key generation is
  modelled by `freshId` (successor of the largest key in use);
* Django `DateTimeField` / `DateField` values are modelled as `Nat`;
* nullable columns are `Option`;
* the relational store is a `Store` of lists, one per table;
* `QuerySet.filter` is `List.filter`, `QuerySet.first()` and
  `QuerySet.get` (under the store's uniqueness constraints) are
  `List.find?`;
* `check_password` compares the supplied password with the stored
  credential (hashing is handled by the framework and preserved
  faithfully by equality).
-/

namespace ChurchSaas

/-- Church (tenant) row, from `accounts/models.py` `Church`. -/
structure Church where
  id : Nat
  name : String
  country : String
  region : String
  city : String
  timezone : String
  currency : String
  status : String
  deleted_at : Option Nat
deriving DecidableEq, Repr

/-- User (account) row, from `accounts/models.py` `User`.
`church = none` iff the account is a platform admin (enforced by
`User.save`); `username` is inherited from Django's `AbstractUser` and
globally unique in the store; `password` stands for the stored
credential. -/
structure User where
  id : Nat
  username : String
  email : String
  password : String
  church : Option Nat
  phone : Option String
  is_active : Bool
  is_platform_admin : Bool
  is_staff : Bool
  deleted_at : Option Nat
deriving DecidableEq, Repr

/-- Role row, from `accounts/models.py` `Role`. -/
structure Role where
  id : Nat
  name : String
  level : Nat
deriving DecidableEq, Repr

/-- User-role assignment row, from `accounts/models.py` `UserRole`. -/
structure UserRole where
  id : Nat
  user : Nat
  role : Nat
  church : Nat
deriving DecidableEq, Repr

/-- Member row, from `members/models.py` `Member` (fields the modelled
operations read or write). -/
structure Member where
  id : Nat
  church : Nat
  first_name : String
  last_name : String
  gender : String
  membership_status : String
  member_since : Nat
  occupation : Option String
  notes : Option String
  deleted_at : Option Nat
deriving DecidableEq, Repr

/-- Member contact/location row, from `members/models.py` `MemberLocation`. -/
structure MemberLocation where
  id : Nat
  member : Nat
  church : Nat
  phone_primary : String
  email : Option String
  city : Option String
  address : String
  deleted_at : Option Nat
deriving DecidableEq, Repr

/-- Visitor row, from `members/models.py` `Visitor`.
The model has no deletion-timestamp column. -/
structure Visitor where
  id : Nat
  church : Nat
  full_name : String
  gender : Option String
  phone : String
  email : Option String
  city : Option String
  first_visit_date : Nat
  converted_to_member : Bool
deriving DecidableEq, Repr

/-- The relational store: one list per table. -/
structure Store where
  churches : List Church
  users : List User
  roles : List Role
  userRoles : List UserRole
  members : List Member
  memberLocations : List MemberLocation
  visitors : List Visitor
deriving DecidableEq, Repr

/-- Fresh opaque key (models `uuid4`): one more than the largest key in use. -/
def freshId (ids : List Nat) : Nat := ids.foldr max 0 + 1

/-- Django's `check_password` on the stored credential. -/
def checkPassword (u : User) (p : String) : Bool := u.password == p

/-! ## Authentication resolver (`accounts/backends.py`) -/

/-- First branch of `ChurchEmailBackend.authenticate`:
`User.objects.filter(email=email, is_active=True, is_platform_admin=True).first()`. -/
def findPlatformAdmin (s : Store) (email : String) : Option User :=
  s.users.find? fun u => u.email == email && u.is_active && u.is_platform_admin

/-- Third branch of `ChurchEmailBackend.authenticate`:
`User.objects.get(email=email, church_id=church_id, is_active=True,
is_platform_admin=False)` (unique under the `(email, church)` constraint). -/
def findChurchUser (s : Store) (email : String) (cid : Nat) : Option User :=
  s.users.find? fun u =>
    u.email == email && u.church == some cid && u.is_active && !u.is_platform_admin

/-- `ChurchEmailBackend.authenticate` from `accounts/backends.py`: try the
active platform admin first (tenant id ignored); else require a church id
and look up the active tenant-scoped account under that church. -/
def authenticate (s : Store) (email password : String) (church_id : Option Nat) :
    Option User :=
  let adminHit :=
    match findPlatformAdmin s email with
    | some u => if checkPassword u password then some u else none
    | none => none
  match adminHit with
  | some u => some u
  | none =>
    match church_id with
    | none => none
    | some cid =>
      match findChurchUser s email cid with
      | some u => if checkPassword u password then some u else none
      | none => none

/-- Outcome of `LoginSerializer.validate` (`accounts/serializers.py`). -/
inductive LoginResult where
  /-- authentication succeeded; the serializer returns this user -/
  | ok (u : User)
  /-- `ValidationError("Invalid credentials or church ID")` -/
  | invalidCredentials
  /-- `ValidationError("User account is disabled")` -/
  | disabled
deriving DecidableEq, Repr

/-- `LoginSerializer.validate`: run the backend, reject a `None` result as
invalid credentials, reject an inactive user as disabled. -/
def login (s : Store) (email password : String) (church_id : Option Nat) :
    LoginResult :=
  match authenticate s email password church_id with
  | none => .invalidCredentials
  | some u => if u.is_active then .ok u else .disabled

/-! ## Tenant-scoped list endpoints -/

/-- `UserView.get` (`accounts/views.py`): platform admins see all
non-deleted users, optionally narrowed by the `church_id` query
parameter; tenant-scoped callers see their own church's non-deleted
users and `church_id` is never read; the `is_active` filter applies to
both branches. -/
def userListGet (s : Store) (caller : User)
    (church_id_param : Option Nat) (is_active_param : Option Bool) :
    List User :=
  let users :=
    if caller.is_platform_admin then
      let base := s.users.filter fun u => u.deleted_at == none
      match church_id_param with
      | some cid => base.filter fun u => u.church == some cid
      | none => base
    else
      s.users.filter fun u => u.church == caller.church && u.deleted_at == none
  match is_active_param with
  | some b => users.filter fun u => u.is_active == b
  | none => users

/-- `UserRoleView.get` (`accounts/views.py`): platform admins see all
assignments; tenant-scoped callers see their own church's assignments;
`user_id` and `role_id` filters apply to both; the `church_id` filter is
applied only for platform admins. -/
def userRoleListGet (s : Store) (caller : User)
    (user_id_param role_id_param church_id_param : Option Nat) :
    List UserRole :=
  let base :=
    if caller.is_platform_admin then s.userRoles
    else s.userRoles.filter fun ur => caller.church == some ur.church
  let base1 :=
    match user_id_param with
    | some uid => base.filter fun ur => ur.user == uid
    | none => base
  let base2 :=
    match role_id_param with
    | some rid => base1.filter fun ur => ur.role == rid
    | none => base1
  match church_id_param with
  | some cid =>
    if caller.is_platform_admin then base2.filter fun ur => ur.church == cid
    else base2
  | none => base2

/-- `ChurchView.get` (`accounts/views.py`): platform admins see all
non-deleted churches; tenant-scoped callers see only their own church. -/
def churchListGet (s : Store) (caller : User) : List Church :=
  if caller.is_platform_admin then
    s.churches.filter fun c => c.deleted_at == none
  else
    s.churches.filter fun c => some c.id == caller.church && c.deleted_at == none

/-- `MemberView.get` (`members/views.py`):
`Member.objects.filter(church=request.user.church)` — no
deletion-timestamp filter appears in the source. -/
def memberListGet (s : Store) (caller : User) : List Member :=
  s.members.filter fun m => caller.church == some m.church

/-- `VisitorView.get` (`members/views.py`):
`Visitor.objects.filter(church=request.user.church)`. -/
def visitorListGet (s : Store) (caller : User) : List Visitor :=
  s.visitors.filter fun v => caller.church == some v.church

/-! ## Account deletion (`accounts/views.py` `UserDetailAPIView`) -/

/-- `UserDetailAPIView.get_object`: fetch the non-deleted user with this
primary key; platform admins, the user themselves and same-church users
may access it, anyone else gets `None`. -/
def userGetObject (s : Store) (pk : Nat) (caller : User) : Option User :=
  match s.users.find? (fun u => u.id == pk && u.deleted_at == none) with
  | none => none
  | some target =>
    if caller.is_platform_admin then some target
    else if caller.id == target.id then some target
    else if caller.church == target.church then some target
    else none

/-- Outcome of `UserDetailAPIView.delete`. -/
inductive UserDeleteResult where
  /-- 404 `"User not found or access denied"` -/
  | notFound
  /-- 400 `"You cannot delete your own account"` -/
  | selfDelete
  /-- 204: soft delete performed, yielding the updated store -/
  | deleted (s' : Store)
deriving DecidableEq, Repr

/-- `UserDetailAPIView.delete`: resolve the target through
`get_object`, reject self-deletion, otherwise set the deletion
timestamp and clear the active flag. There is no platform-admin gate in
the source. -/
def userDelete (s : Store) (caller : User) (pk : Nat) (now : Nat) :
    UserDeleteResult :=
  match userGetObject s pk caller with
  | none => .notFound
  | some target =>
    if target.id == caller.id then .selfDelete
    else
      .deleted { s with
        users := s.users.map fun u =>
          if u.id == target.id then
            { u with deleted_at := some now, is_active := false }
          else u }

/-! ## Self-service onboarding (`accounts/serializers.py` `RegisterSerializer`,
`accounts/views.py` `RegisterAPIView.post`) -/

/-- Request body of `POST /auth/register` (fields the modelled operation
reads). -/
structure RegisterInput where
  church_name : String
  country : String
  region : String
  city : String
  timezone : String
  currency : String
  admin_username : String
  admin_email : String
  admin_password : String
deriving DecidableEq, Repr

/-- Outcome of registration. -/
inductive RegisterResult where
  /-- 201: tenant and admin account created, updated store and the admin -/
  | created (s' : Store) (admin : User)
  /-- 400 `ValidationError("This email is already registered")` -/
  | emailTaken
  /-- 500: `AbstractUser` keeps the globally unique `username` column and
  `RegisterSerializer` never validates `admin_username`, so `create_user`
  raises `IntegrityError` on a taken username; `transaction.atomic` rolls
  the church insert back, so no row is created -/
  | usernameTaken
deriving DecidableEq, Repr

/-- The tenant row built by `RegisterSerializer.create`: status `TRIAL`. -/
def regChurch (s : Store) (inp : RegisterInput) : Church :=
  { id := freshId (s.churches.map Church.id), name := inp.church_name,
    country := inp.country, region := inp.region, city := inp.city,
    timezone := inp.timezone, currency := inp.currency,
    status := "TRIAL", deleted_at := none }

/-- The admin account built by `RegisterSerializer.create`: bound to the
new tenant, staff, not a platform admin. -/
def regAdmin (s : Store) (inp : RegisterInput) : User :=
  { id := freshId (s.users.map User.id), username := inp.admin_username,
    email := inp.admin_email,
    password := inp.admin_password, church := some (regChurch s inp).id,
    phone := none, is_active := true, is_platform_admin := false,
    is_staff := true, deleted_at := none }

/-- The store after a successful onboarding: the new tenant and admin
are appended; a Pastor role assignment is added when a role named
`"Pastor"` exists (silently skipped otherwise). -/
def regStore (s : Store) (inp : RegisterInput) : Store :=
  let s1 := { s with churches := s.churches ++ [regChurch s inp],
                     users := s.users ++ [regAdmin s inp] }
  match s.roles.find? (fun r => r.name == "Pastor") with
  | some r =>
    { s1 with userRoles := s1.userRoles ++
        [{ id := freshId (s.userRoles.map UserRole.id),
           user := (regAdmin s inp).id, role := r.id,
           church := (regChurch s inp).id }] }
  | none => s1

/-- `RegisterSerializer.validate_admin_email` then
`RegisterSerializer.create` inside `transaction.atomic`: reject a
globally used admin email with a 400 validation error; then the atomic
block creates the church with status `TRIAL` and calls `create_user`,
which hits the store's unique-username constraint — a taken
`admin_username` raises `IntegrityError` and rolls the church insert
back; otherwise the church, the tenant-bound staff (non-platform-admin)
account and, when a role named `"Pastor"` exists, the Pastor role
assignment are all committed. The all-or-nothing transaction is
realised by the pure function returning either the whole new store or
none of it. -/
def register (s : Store) (inp : RegisterInput) : RegisterResult :=
  if s.users.any (fun u => u.email == inp.admin_email) then .emailTaken
  else if s.users.any (fun u => u.username == inp.admin_username) then
    .usernameTaken
  else .created (regStore s inp) (regAdmin s inp)

/-! ## Account-role assignment creation (`accounts/views.py`
`UserRoleView.post`, `accounts/serializers.py` `UserRoleSerializer.validate`) -/

/-- Outcome of `POST /account-roles/`. -/
inductive UserRolePostResult where
  /-- 403 `"You can only assign roles in your own church"` -/
  | forbidden
  /-- 400: a referenced user, role or church id does not resolve -/
  | invalidRef
  /-- 400 `ValidationError("User must belong to the church")` -/
  | userNotInChurch
  /-- 400 `ValidationError("This user already has this role in this church")`
  (the duplicate-triple rejection, `Conflict` in the spec's taxonomy) -/
  | duplicate
  /-- 201: assignment created -/
  | created (s' : Store) (ur : UserRole)
deriving DecidableEq, Repr

/-- The assignment row saved by `UserRoleSerializer`. -/
def nextUserRole (s : Store) (u : User) (r : Role) (c : Church) : UserRole :=
  { id := freshId (s.userRoles.map UserRole.id),
    user := u.id, role := r.id, church := c.id }

/-- `UserRoleView.post`: a tenant-scoped caller whose own church differs
from the request's church is rejected up front with 403; then the
serializer resolves the referenced rows, rejects a target user outside
the assignment's church, rejects a duplicate `(user, role, church)`
triple, and otherwise saves the assignment. -/
def userRolePost (s : Store) (caller : User)
    (user_id role_id church_id : Nat) : UserRolePostResult :=
  if !caller.is_platform_admin && !(caller.church == some church_id) then
    .forbidden
  else
    match s.users.find? (fun u => u.id == user_id),
          s.roles.find? (fun r => r.id == role_id),
          s.churches.find? (fun c => c.id == church_id) with
    | some u, some r, some c =>
      if !(u.church == some c.id) then .userNotInChurch
      else if s.userRoles.any
          (fun ur => ur.user == u.id && ur.role == r.id && ur.church == c.id) then
        .duplicate
      else .created { s with userRoles := s.userRoles ++ [nextUserRole s u r c] }
        (nextUserRole s u r c)
    | _, _, _ => .invalidRef

/-! ## Role deletion (`accounts/views.py` `RoleDetailAPIView.delete`) -/

/-- Outcome of `DELETE /roles/{id}`. -/
inductive RoleDeleteResult where
  /-- 403 `"Only platform administrators can delete roles"` -/
  | forbidden
  /-- 404 `"Role not found"` -/
  | notFound
  /-- 400 `"Cannot delete role that is assigned to users"` (the
  referenced-role rejection, `Conflict` in the spec's taxonomy) -/
  | inUse
  /-- 204: role removed -/
  | deleted (s' : Store)
deriving DecidableEq, Repr

/-- `RoleDetailAPIView.delete`: platform admins only; 404 when the role
is absent; reject while any `UserRole` references the role; otherwise
remove the role row. -/
def roleDelete (s : Store) (caller : User) (pk : Nat) : RoleDeleteResult :=
  if !caller.is_platform_admin then .forbidden
  else
    match s.roles.find? (fun r => r.id == pk) with
    | none => .notFound
    | some r =>
      if s.userRoles.any (fun ur => ur.role == r.id) then .inUse
      else .deleted { s with roles := s.roles.filter fun r2 => !(r2.id == pk) }

/-! ## Visitor-to-member conversion (`members/serializers.py`
`VisitorToMemberSerializer`, `members/views.py` `VisitorToMemberView.post`) -/

/-- Request body of the conversion endpoint. -/
structure ConvertInput where
  visitor_id : Nat
  member_since : Nat
  occupation : Option String
  notes : Option String
deriving DecidableEq, Repr

/-- Outcome of the conversion endpoint. -/
inductive ConvertResult where
  /-- 400 `ValidationError("Visitor not found")` -/
  | visitorNotFound
  /-- 400 `ValidationError("Visitor already converted")` -/
  | alreadyConverted
  /-- 400 `ValidationError("User must belong to a church")` -/
  | noChurch
  /-- 201: member created, updated store and the new member -/
  | created (s' : Store) (m : Member)
deriving DecidableEq, Repr

/-- Accumulating worker for `pySplitSpace`. -/
def splitAux : List Char → List Char → List String
  | [], acc => [String.mk acc.reverse]
  | c :: rest, acc =>
    if c = ' ' then String.mk acc.reverse :: splitAux rest []
    else splitAux rest (c :: acc)

/-- Python's `s.split(" ")`: split at every single space, keeping empty
pieces; never returns an empty list. -/
def pySplitSpace (s : String) : List String := splitAux s.data []

/-- Python's `" ".join(l)`. -/
def joinSpace : List String → String
  | [] => ""
  | [x] => x
  | x :: xs => x ++ " " ++ joinSpace xs

/-- Python's `name.split(" ")[0]`. -/
def splitFirstWord (name : String) : String := (pySplitSpace name).headD ""

/-- Python's `" ".join(name.split(" ")[1:]) or name` (the empty string
is falsy, so a single-word name falls back to the whole name). -/
def splitRestWords (name : String) : String :=
  let rest := joinSpace ((pySplitSpace name).drop 1)
  if rest == "" then name else rest

/-- Python's `value or "default"` on a nullable string column. -/
def orElseStr (v : Option String) (d : String) : String :=
  match v with
  | some c => if c == "" then d else c
  | none => d

/-- The member built by `VisitorToMemberSerializer.create`: bound to the
caller's church, name split from the visitor's full name, status
`NEW_CONVERT`. -/
def convertedMember (s : Store) (cid : Nat) (v : Visitor) (inp : ConvertInput) :
    Member :=
  { id := freshId (s.members.map Member.id), church := cid,
    first_name := splitFirstWord v.full_name,
    last_name := splitRestWords v.full_name,
    gender := orElseStr v.gender "MALE",
    membership_status := "NEW_CONVERT",
    member_since := inp.member_since,
    occupation := inp.occupation, notes := inp.notes,
    deleted_at := none }

/-- The member location built by `VisitorToMemberSerializer.create`:
also bound to the caller's church. -/
def convertedLocation (s : Store) (cid : Nat) (v : Visitor) (inp : ConvertInput) :
    MemberLocation :=
  { id := freshId (s.memberLocations.map MemberLocation.id),
    member := (convertedMember s cid v inp).id, church := cid,
    phone_primary := v.phone, email := v.email, city := v.city,
    address := orElseStr v.city "Unknown", deleted_at := none }

/-- The store after a successful conversion: member and location
appended, and the source visitor's converted flag set. -/
def convertStore (s : Store) (cid : Nat) (v : Visitor) (inp : ConvertInput) :
    Store :=
  { s with
    members := s.members ++ [convertedMember s cid v inp],
    memberLocations := s.memberLocations ++ [convertedLocation s cid v inp],
    visitors := s.visitors.map fun w =>
      if w.id == v.id then { w with converted_to_member := true } else w }

/-- `VisitorToMemberSerializer` (`validate_visitor_id` then `create`,
inside `transaction.atomic`): fetch the visitor by id with no tenant
filter, reject an already-converted visitor, require the caller to have
a church, then create the member and location bound to the caller's
church and mark the visitor converted. -/
def convertVisitor (s : Store) (caller : User) (inp : ConvertInput) :
    ConvertResult :=
  match s.visitors.find? (fun v => v.id == inp.visitor_id) with
  | none => .visitorNotFound
  | some v =>
    if v.converted_to_member then .alreadyConverted
    else
      match caller.church with
      | none => .noChurch
      | some cid =>
        .created (convertStore s cid v inp) (convertedMember s cid v inp)

/-! ## Helper lemmas -/

lemma find?_eq_some_of_unique {α : Type} (p : α → Bool) {l : List α} {a : α}
    (ha : a ∈ l) (hpa : p a = true) (huniq : ∀ b ∈ l, p b = true → b = a) :
    l.find? p = some a := by
  cases h : l.find? p with
  | none =>
    rw [List.find?_eq_none] at h
    exact absurd hpa (h a ha)
  | some b =>
    have hb1 := List.find?_some h
    have hb2 := List.mem_of_find?_eq_some h
    rw [huniq b hb2 hb1]

lemma mem_userRoleListGet_base (s : Store) (caller : User)
    (up rp cp : Option Nat) (ur : UserRole)
    (hadm : caller.is_platform_admin = false)
    (h : ur ∈ userRoleListGet s caller up rp cp) :
    ur ∈ s.userRoles ∧ caller.church = some ur.church := by
  simp only [userRoleListGet, hadm, Bool.false_eq_true, if_false] at h
  cases cp <;> cases rp <;> cases up <;>
    simp_all [List.mem_filter]

/-! ## Claim theorems -/

/-- C1: for every tenant-scoped account bound to tenant `T`, every row
returned by the user-list and user-role-list collection queries has
tenant reference `T`, and the `church_id` filter parameter supplied by
such an account never changes the result set. -/
theorem tenant_scoped_lists_confined_and_church_param_ignored
    (s : Store) (caller : User) (T : Nat)
    (hadm : caller.is_platform_admin = false) (hch : caller.church = some T) :
    (∀ cp ap, ∀ u ∈ userListGet s caller cp ap, u.church = some T) ∧
    (∀ cp cp' ap, userListGet s caller cp ap = userListGet s caller cp' ap) ∧
    (∀ up rp cp, ∀ ur ∈ userRoleListGet s caller up rp cp, ur.church = T) ∧
    (∀ up rp cp cp', userRoleListGet s caller up rp cp =
      userRoleListGet s caller up rp cp') := by
  refine ⟨?_, ?_, ?_, ?_⟩
  · intro cp ap u hu
    simp only [userListGet, hadm, Bool.false_eq_true, if_false] at hu
    have hmem : u ∈ s.users.filter
        (fun x => x.church == caller.church && x.deleted_at == none) := by
      cases ap with
      | none => exact hu
      | some b => exact (List.mem_filter.mp hu).1
    have hpred := (List.mem_filter.mp hmem).2
    simp only [Bool.and_eq_true, beq_iff_eq] at hpred
    rw [hpred.1, hch]
  · intro cp cp' ap
    simp only [userListGet, hadm, Bool.false_eq_true, if_false]
  · intro up rp cp ur hur
    have := (mem_userRoleListGet_base s caller up rp cp ur hadm hur).2
    rw [hch] at this
    exact (Option.some_inj.mp this).symm
  · intro up rp cp cp'
    cases cp <;> cases cp' <;> simp [userRoleListGet, hadm]

/-! ### Concrete fixtures for C1 -/

def w1Church0 : Church :=
  ⟨0, "Alpha", "Ghana", "GA", "Accra", "UTC", "USD", "ACTIVE", none⟩

def w1Church1 : Church :=
  ⟨1, "Beta", "Ghana", "GA", "Accra", "UTC", "USD", "ACTIVE", none⟩

def w1Caller : User :=
  ⟨1, "u1", "p@a.com", "pw", some 0, none, true, false, false, none⟩

def w1Other : User :=
  ⟨2, "u2", "q@a.com", "pw", some 0, none, true, false, false, none⟩

def w1Foreign : User :=
  ⟨3, "u3", "r@b.com", "pw", some 1, none, true, false, false, none⟩

def w1Store : Store :=
  ⟨[w1Church0, w1Church1], [w1Caller, w1Other, w1Foreign], [⟨7, "Pastor", 1⟩],
   [⟨50, 1, 7, 0⟩, ⟨51, 3, 7, 1⟩], [], [], []⟩

theorem tenant_scoped_lists_confined_and_church_param_ignored_witness :
    userListGet w1Store w1Caller (some 9) none =
      userListGet w1Store w1Caller none none ∧
    userRoleListGet w1Store w1Caller none none (some 9) =
      userRoleListGet w1Store w1Caller none none none ∧
    userListGet w1Store w1Caller none none = [w1Caller, w1Other] ∧
    userRoleListGet w1Store w1Caller none none none = [⟨50, 1, 7, 0⟩] := by
  have h := tenant_scoped_lists_confined_and_church_param_ignored
    w1Store w1Caller 0 (by decide) (by decide)
  exact ⟨h.2.1 (some 9) none none, h.2.2.2 none none (some 9) none,
    by decide, by decide⟩

/-- C3: every active super-scope (platform-admin) account authenticates
with its email and correct password regardless of whether a tenant
identifier is supplied and regardless of its value; the super-scope
branch is attempted first and ignores the tenant identifier. The
uniqueness hypothesis is the store's `unique_email_platform_admin`
constraint. -/
theorem super_scope_login_ignores_tenant
    (s : Store) (A : User) (p : String)
    (hA : A ∈ s.users) (hact : A.is_active = true)
    (hadm : A.is_platform_admin = true)
    (hpw : checkPassword A p = true)
    (huniq : ∀ u ∈ s.users, u.is_platform_admin = true → u.email = A.email →
      u = A) :
    ∀ cid : Option Nat, login s A.email p cid = .ok A := by
  intro cid
  have hfind : findPlatformAdmin s A.email = some A := by
    apply find?_eq_some_of_unique _ hA
    · simp [hact, hadm]
    · intro b hb hpb
      simp only [Bool.and_eq_true, beq_iff_eq] at hpb
      exact huniq b hb hpb.2 hpb.1.1
  simp [login, authenticate, hfind, hpw, hact]

/-! ### Concrete fixtures for C3 -/

def w3Admin : User :=
  ⟨0, "u0", "root@x.com", "pw", none, none, true, true, true, none⟩

def w3Tenant : User :=
  ⟨1, "u1", "root@x.com", "other", some 0, none, true, false, false, none⟩

def w3Store : Store :=
  ⟨[w1Church0], [w3Admin, w3Tenant], [], [], [], [], []⟩

theorem super_scope_login_ignores_tenant_witness :
    login w3Store "root@x.com" "pw" none = .ok w3Admin ∧
    login w3Store "root@x.com" "pw" (some 0) = .ok w3Admin ∧
    login w3Store "root@x.com" "pw" (some 42) = .ok w3Admin := by
  have h := super_scope_login_ignores_tenant w3Store w3Admin "pw"
    (by decide) (by decide) (by decide) (by decide) (by decide)
  exact ⟨h none, h (some 0), h (some 42)⟩

/-! ### C2: tenant-scoped login and the tenant identifier -/

def x2Admin : User :=
  ⟨0, "u0", "e@x.com", "pw", none, none, true, true, true, none⟩

def x2User : User :=
  ⟨1, "u1", "e@x.com", "pw", some 0, none, true, false, false, none⟩

def x2ShadowStore : Store :=
  ⟨[w1Church0, w1Church1], [x2Admin, x2User], [], [], [], [], []⟩

def x2TwinA : User :=
  ⟨1, "u1", "t@x.com", "pw", some 0, none, true, false, false, none⟩

def x2TwinB : User :=
  ⟨2, "u2", "t@x.com", "pw", some 1, none, true, false, false, none⟩

def x2TwinStore : Store :=
  ⟨[w1Church0, w1Church1], [x2TwinA, x2TwinB], [], [], [], [], []⟩

/-- C2 counterexample: the claim says a tenant-scoped account's login
with a wrong tenant identifier fails with `InvalidCredentials` even if a
same-email account exists elsewhere. In `x2ShadowStore`, the
tenant-scoped account `x2User` bound to tenant 0 shares email and
password with the active platform admin `x2Admin`, and login with the
foreign tenant id 1 succeeds (returning the admin). In `x2TwinStore`,
`x2TwinA` is bound to tenant 0 and a same-email same-password account
`x2TwinB` exists under tenant 1; login with `x2TwinA`'s credentials and
tenant id 1 succeeds, returning `x2TwinB`. -/
theorem tenant_login_wrong_tenant_can_succeed :
    login x2ShadowStore "e@x.com" "pw" (some 1) = .ok x2Admin ∧
    login x2TwinStore "t@x.com" "pw" (some 1) = .ok x2TwinB := by decide

/-- C2 (amended): for an active tenant-scoped account `A` bound to
tenant `T`, provided no active super-scope account with the same email
accepts the password, login with `A`'s email and correct password
succeeds with tenant id `T`; it fails with `InvalidCredentials` with a
tenant id `T' ≠ T` provided no active tenant-scoped account with the
same email under `T'` accepts the password; and it fails with no tenant
id supplied. The uniqueness hypothesis is the store's
`unique_email_per_church` constraint restricted to `T`. -/
theorem tenant_login_requires_own_tenant
    (s : Store) (A : User) (p : String) (T : Nat)
    (hA : A ∈ s.users) (hact : A.is_active = true)
    (hadm : A.is_platform_admin = false) (hch : A.church = some T)
    (hpw : checkPassword A p = true)
    (hshadow : ∀ u ∈ s.users, u.is_platform_admin = true →
      u.is_active = true → u.email = A.email → checkPassword u p = false)
    (huniq : ∀ u ∈ s.users, u.email = A.email → u.church = some T → u = A) :
    login s A.email p (some T) = .ok A ∧
    (∀ T', T' ≠ T →
      (∀ u ∈ s.users, u.email = A.email → u.church = some T' →
        u.is_active = true → u.is_platform_admin = false →
        checkPassword u p = false) →
      login s A.email p (some T') = .invalidCredentials) ∧
    login s A.email p none = .invalidCredentials := by
  have hadminMiss : ∀ cid, authenticate s A.email p cid =
      (match cid with
       | none => none
       | some c =>
         match findChurchUser s A.email c with
         | some u => if checkPassword u p then some u else none
         | none => none) := by
    intro cid
    unfold authenticate
    cases hfp : findPlatformAdmin s A.email with
    | none => simp
    | some u =>
      unfold findPlatformAdmin at hfp
      have hpu := List.find?_some hfp
      have hmu := List.mem_of_find?_eq_some hfp
      simp only [Bool.and_eq_true, beq_iff_eq] at hpu
      have hcp : checkPassword u p = false :=
        hshadow u hmu hpu.2 hpu.1.2 hpu.1.1
      simp [hcp]
  refine ⟨?_, ?_, ?_⟩
  · have hfcu : findChurchUser s A.email T = some A := by
      unfold findChurchUser
      apply find?_eq_some_of_unique _ hA
      · simp [hch, hact, hadm]
      · intro b hb hpb
        simp only [Bool.and_eq_true, beq_iff_eq, Bool.not_eq_true'] at hpb
        exact huniq b hb hpb.1.1.1 hpb.1.1.2
    simp [login, hadminMiss (some T), hfcu, hpw, hact]
  · intro T' hne hother
    simp only [login, hadminMiss (some T')]
    cases hfc : findChurchUser s A.email T' with
    | none => simp
    | some u =>
      unfold findChurchUser at hfc
      have hpu := List.find?_some hfc
      have hmu := List.mem_of_find?_eq_some hfc
      simp only [Bool.and_eq_true, beq_iff_eq, Bool.not_eq_true'] at hpu
      have hcp : checkPassword u p = false :=
        hother u hmu hpu.1.1.1 hpu.1.1.2 hpu.1.2 hpu.2
      simp [hcp]
  · simp [login, hadminMiss none]

/-! ### Concrete fixtures for the C2 witness -/

def w2User : User :=
  ⟨1, "u1", "a@x.com", "pw", some 0, none, true, false, false, none⟩

def w2Store : Store :=
  ⟨[w1Church0], [w2User], [], [], [], [], []⟩

theorem tenant_login_requires_own_tenant_witness :
    login w2Store "a@x.com" "pw" (some 0) = .ok w2User ∧
    login w2Store "a@x.com" "pw" (some 3) = .invalidCredentials ∧
    login w2Store "a@x.com" "pw" none = .invalidCredentials := by
  have h := tenant_login_requires_own_tenant w2Store w2User "pw" 0
    (by decide) (by decide) (by decide) (by decide) (by decide)
    (by decide) (by decide)
  exact ⟨h.1, h.2.1 3 (by decide) (by decide), h.2.2⟩

/-! ### C4: account deletion scope -/

def x4Caller : User :=
  ⟨1, "u1", "a@x.com", "pw", some 0, none, true, false, false, none⟩

def x4Target : User :=
  ⟨2, "u2", "b@x.com", "pw", some 0, none, true, false, false, none⟩

def x4Store : Store :=
  ⟨[w1Church0], [x4Caller, x4Target], [], [], [], [], []⟩

def x4StoreAfter : Store :=
  ⟨[w1Church0],
   [x4Caller, ⟨2, "u2", "b@x.com", "pw", some 0, none, false, false, false, some 9⟩],
   [], [], [], [], []⟩

/-- C4 counterexample: the claim says any deletion request by a
tenant-scoped caller is rejected with Forbidden. In `x4Store` the
tenant-scoped caller `x4Caller` deletes the same-tenant account
`x4Target` and the deletion goes through (soft delete applied) — the
handler has no super-scope gate at all. -/
theorem tenant_scoped_caller_can_delete_account :
    userDelete x4Store x4Caller 2 9 = .deleted x4StoreAfter := by decide

/-- C4 (amended): account deletion is not restricted to super-scope
callers. A tenant-scoped caller targeting an account outside their own
tenant is rejected as NotFound, while self-deletion is always rejected
(never a successful deletion) for every caller of any scope, leaving
the store unchanged. -/
theorem account_delete_self_and_cross_tenant
    (s : Store) (caller : User) (pk now : Nat) :
    (userDelete s caller caller.id now = .selfDelete ∨
     userDelete s caller caller.id now = .notFound) ∧
    (caller.is_platform_admin = false →
      pk ≠ caller.id →
      (∀ u ∈ s.users, u.id = pk → u.church ≠ caller.church) →
      userDelete s caller pk now = .notFound) := by
  constructor
  · unfold userDelete userGetObject
    cases hf : s.users.find? (fun u => u.id == caller.id && u.deleted_at == none) with
    | none => simp
    | some target =>
      have hpt := List.find?_some hf
      simp only [Bool.and_eq_true, beq_iff_eq] at hpt
      by_cases hadm : caller.is_platform_admin = true <;>
        simp [hadm, hpt.1]
  · intro hadm hne hcross
    unfold userDelete userGetObject
    cases hf : s.users.find? (fun u => u.id == pk && u.deleted_at == none) with
    | none => simp
    | some target =>
      have hpt := List.find?_some hf
      have hmt := List.mem_of_find?_eq_some hf
      simp only [Bool.and_eq_true, beq_iff_eq] at hpt
      have hch : target.church ≠ caller.church := hcross target hmt hpt.1
      have hid : caller.id ≠ target.id := by
        rw [hpt.1]; exact fun h => hne h.symm
      have hch2 : caller.church ≠ target.church := fun h => hch h.symm
      simp [hadm, hid, hch2]

def w4ForeignTarget : User :=
  ⟨3, "u3", "c@y.com", "pw", some 1, none, true, false, false, none⟩

def w4Store : Store :=
  ⟨[w1Church0, w1Church1], [x4Caller, w4ForeignTarget], [], [], [], [], []⟩

theorem account_delete_self_and_cross_tenant_witness :
    (userDelete w4Store x4Caller 1 9 = .selfDelete ∨
     userDelete w4Store x4Caller 1 9 = .notFound) ∧
    userDelete w4Store x4Caller 3 9 = .notFound := by
  have h := account_delete_self_and_cross_tenant w4Store x4Caller 3 9
  exact ⟨h.1, h.2 (by decide) (by decide) (by decide)⟩

/-! ### C5: soft-deleted rows on default read paths -/

def x5Caller : User :=
  ⟨1, "u1", "a@x.com", "pw", some 0, none, true, false, false, none⟩

def x5DeletedMember : Member :=
  ⟨10, 0, "John", "Doe", "MALE", "ACTIVE", 100, none, none, some 5⟩

def x5Store : Store :=
  ⟨[w1Church0], [x5Caller], [], [], [x5DeletedMember], [], []⟩

/-- C5: the member collection query
(`Member.objects.filter(church=request.user.church)`) applies no
deletion-timestamp filter, so a soft-deleted member (deletion timestamp
set at time 5) is returned to its church's caller, contradicting the
spec's rule that all default read paths exclude soft-deleted records.
The tenant, account and single-record paths do filter, so this is the
collection path's omission. -/
theorem member_list_returns_soft_deleted :
    memberListGet x5Store x5Caller = [x5DeletedMember] ∧
    x5DeletedMember.deleted_at = some 5 := by decide

/-! ### C6: self-service onboarding -/

def w6Inp : RegisterInput :=
  ⟨"Grace", "Ghana", "GA", "Accra", "UTC", "USD", "pastorjohn",
   "pastor@x.com", "longpass1"⟩

def x6UsernameStore : Store :=
  ⟨[w1Church0],
   [⟨1, "pastorjohn", "rival@x.com", "pw", some 0, none, true, false, false,
     none⟩],
   [], [], [], [], []⟩

/-- C6 counterexample: the claim says a request with a globally unused
admin email creates the tenant and account and returns 201. In
`x6UsernameStore` the admin email `"pastor@x.com"` is unused, but the
requested admin username `"pastorjohn"` already belongs to an existing
account; `RegisterSerializer` never validates the username, so
`create_user` hits the store's globally unique username constraint,
`IntegrityError` is raised (no 201) and the transaction rolls the
church insert back. -/
theorem register_free_email_can_still_fail :
    register x6UsernameStore w6Inp = .usernameTaken := by decide

/-- C6 (amended): onboarding with a globally unused admin email whose
admin username is also unused creates exactly one tenant with lifecycle
status `TRIAL` and one tenant-scoped (non-platform-admin) account bound
to it, returning 201; onboarding with an admin email already registered
to any existing account fails with the 400 validation error; onboarding
with an unused email but an already-taken admin username fails with the
store's uniqueness `IntegrityError`. In every failure case the atomic
transaction leaves no tenant and no account behind (the failure results
carry no store change). -/
theorem register_onboarding_all_or_nothing (s : Store) (inp : RegisterInput) :
    ((∀ u ∈ s.users, u.email ≠ inp.admin_email) →
      (∀ u ∈ s.users, u.username ≠ inp.admin_username) →
      register s inp = .created (regStore s inp) (regAdmin s inp) ∧
      (regStore s inp).churches = s.churches ++ [regChurch s inp] ∧
      (regChurch s inp).status = "TRIAL" ∧
      (regStore s inp).users = s.users ++ [regAdmin s inp] ∧
      (regAdmin s inp).church = some (regChurch s inp).id ∧
      (regAdmin s inp).is_platform_admin = false ∧
      (regAdmin s inp).email = inp.admin_email) ∧
    ((∃ u ∈ s.users, u.email = inp.admin_email) →
      register s inp = .emailTaken) ∧
    ((∀ u ∈ s.users, u.email ≠ inp.admin_email) →
      (∃ u ∈ s.users, u.username = inp.admin_username) →
      register s inp = .usernameTaken) := by
  refine ⟨?_, ?_, ?_⟩
  · intro hfree hname
    have hany : s.users.any (fun u => u.email == inp.admin_email) = false := by
      rw [List.any_eq_false]
      intro u hu
      simp [hfree u hu]
    have hanyn : s.users.any
        (fun u => u.username == inp.admin_username) = false := by
      rw [List.any_eq_false]
      intro u hu
      simp [hname u hu]
    refine ⟨by simp [register, hany, hanyn], ?_, rfl, ?_, rfl, rfl, rfl⟩
    · unfold regStore
      cases s.roles.find? (fun r => r.name == "Pastor") <;> rfl
    · unfold regStore
      cases s.roles.find? (fun r => r.name == "Pastor") <;> rfl
  · intro ⟨u, hu, hemail⟩
    have hany : s.users.any (fun u => u.email == inp.admin_email) = true := by
      rw [List.any_eq_true]
      exact ⟨u, hu, by simp [hemail]⟩
    simp [register, hany]
  · intro hfree ⟨u, hu, hun⟩
    have hany : s.users.any (fun u => u.email == inp.admin_email) = false := by
      rw [List.any_eq_false]
      intro u hu
      simp [hfree u hu]
    have hanyn : s.users.any
        (fun u => u.username == inp.admin_username) = true := by
      rw [List.any_eq_true]
      exact ⟨u, hu, by simp [hun]⟩
    simp [register, hany, hanyn]

/-! ### Concrete fixtures for the C6 witness -/

def w6TakenStore : Store :=
  ⟨[w1Church0],
   [⟨1, "u1", "pastor@x.com", "pw", some 0, none, true, false, false, none⟩],
   [], [], [], [], []⟩

def w6FreeStore : Store :=
  ⟨[w1Church0],
   [⟨1, "u1", "other@x.com", "pw", some 0, none, true, false, false, none⟩],
   [⟨7, "Pastor", 1⟩], [], [], [], []⟩

theorem register_onboarding_all_or_nothing_witness :
    register w6TakenStore w6Inp = .emailTaken ∧
    register x6UsernameStore w6Inp = .usernameTaken ∧
    register w6FreeStore w6Inp =
      .created (regStore w6FreeStore w6Inp) (regAdmin w6FreeStore w6Inp) ∧
    (regStore w6FreeStore w6Inp).churches =
      w6FreeStore.churches ++ [regChurch w6FreeStore w6Inp] ∧
    (regChurch w6FreeStore w6Inp).status = "TRIAL" ∧
    (regAdmin w6FreeStore w6Inp).church =
      some (regChurch w6FreeStore w6Inp).id := by
  have h1 := (register_onboarding_all_or_nothing w6TakenStore w6Inp).2.1
    ⟨⟨1, "u1", "pastor@x.com", "pw", some 0, none, true, false, false, none⟩,
      by decide, by decide⟩
  have h3 := (register_onboarding_all_or_nothing x6UsernameStore w6Inp).2.2
    (by decide)
    ⟨⟨1, "pastorjohn", "rival@x.com", "pw", some 0, none, true, false, false,
      none⟩, by decide, by decide⟩
  have h2 := (register_onboarding_all_or_nothing w6FreeStore w6Inp).1
    (by decide) (by decide)
  exact ⟨h1, h3, h2.1, h2.2.1, h2.2.2.1, h2.2.2.2.2.1⟩

/-! ### C7: account-role assignment creation -/

def x7Church2 : Church :=
  ⟨2, "Gamma", "Ghana", "GA", "Accra", "UTC", "USD", "ACTIVE", none⟩

def x7Caller : User :=
  ⟨1, "u1", "a@x.com", "pw", some 0, none, true, false, false, none⟩

def x7Target : User :=
  ⟨3, "u3", "b@y.com", "pw", some 2, none, true, false, false, none⟩

def x7Store : Store :=
  ⟨[w1Church0, w1Church1, x7Church2], [x7Caller, x7Target],
   [⟨20, "Secretary", 2⟩], [], [], [], []⟩

/-- C7 counterexample: the claim says a mismatch between the
assignment's tenant and the target account's tenant is rejected with
`ValidationError` regardless of caller scope. In `x7Store` the
tenant-scoped caller (tenant 0) posts an assignment under tenant 1 for a
target account bound to tenant 2 — a mismatched assignment — and the
request is rejected with the view's 403 Forbidden scope check instead
of the serializer's `ValidationError`. -/
theorem user_role_cross_tenant_not_always_validation_error :
    userRolePost x7Store x7Caller 3 20 1 = .forbidden := by decide

/-- C7 (amended): account-role assignment creation is first gated by
scope — a tenant-scoped caller whose own tenant differs from the
assignment's tenant is rejected with Forbidden before validation. Past
that gate (super-scope caller, or tenant-scoped caller targeting their
own tenant), a mismatch between the assignment's tenant and the target
account's tenant is rejected with `ValidationError`, a duplicate
`(account, role, tenant)` triple is rejected with the duplicate
validation error (`Conflict` in the spec's taxonomy), and otherwise the
assignment is created. -/
theorem user_role_post_gate_then_validate
    (s : Store) (caller : User) (uid rid cid : Nat)
    (u : User) (r : Role) (c : Church)
    (hu : s.users.find? (fun x => x.id == uid) = some u)
    (hr : s.roles.find? (fun x => x.id == rid) = some r)
    (hc : s.churches.find? (fun x => x.id == cid) = some c) :
    (caller.is_platform_admin = false → caller.church ≠ some cid →
      userRolePost s caller uid rid cid = .forbidden) ∧
    (caller.is_platform_admin = true ∨ caller.church = some cid →
      u.church ≠ some c.id →
      userRolePost s caller uid rid cid = .userNotInChurch) ∧
    (caller.is_platform_admin = true ∨ caller.church = some cid →
      u.church = some c.id →
      (∃ ur ∈ s.userRoles, ur.user = u.id ∧ ur.role = r.id ∧ ur.church = c.id) →
      userRolePost s caller uid rid cid = .duplicate) ∧
    (caller.is_platform_admin = true ∨ caller.church = some cid →
      u.church = some c.id →
      (∀ ur ∈ s.userRoles, ¬(ur.user = u.id ∧ ur.role = r.id ∧ ur.church = c.id)) →
      userRolePost s caller uid rid cid =
        .created { s with userRoles := s.userRoles ++ [nextUserRole s u r c] }
          (nextUserRole s u r c)) := by
  have hgate : ∀ goal : UserRolePostResult,
      (caller.is_platform_admin = true ∨ caller.church = some cid) →
      ((!caller.is_platform_admin && !(caller.church == some cid)) = false) := by
    intro goal hscope
    rcases hscope with h | h <;> simp [h]
  refine ⟨?_, ?_, ?_, ?_⟩
  · intro hadm hne
    have : (!caller.is_platform_admin && !(caller.church == some cid)) = true := by
      simp [hadm, hne]
    simp [userRolePost, this]
  · intro hscope hmis
    simp [userRolePost, hgate .forbidden hscope, hu, hr, hc, hmis]
  · intro hscope hmatch hdup
    have hany : s.userRoles.any
        (fun ur => ur.user == u.id && ur.role == r.id && ur.church == c.id) = true := by
      rw [List.any_eq_true]
      obtain ⟨ur, hmem, h1, h2, h3⟩ := hdup
      exact ⟨ur, hmem, by simp [h1, h2, h3]⟩
    simp [userRolePost, hgate .forbidden hscope, hu, hr, hc, hmatch, hany]
  · intro hscope hmatch hnodup
    have hany : s.userRoles.any
        (fun ur => ur.user == u.id && ur.role == r.id && ur.church == c.id) = false := by
      rw [List.any_eq_false]
      intro ur hmem
      have := hnodup ur hmem
      simp only [Bool.and_eq_true, beq_iff_eq, not_and] at this ⊢
      tauto
    simp [userRolePost, hgate .forbidden hscope, hu, hr, hc, hmatch, hany]

/-! ### Concrete fixtures for the C7 witness -/

def w7Target0 : User :=
  ⟨2, "u2", "b@x.com", "pw", some 0, none, true, false, false, none⟩

def w7Store : Store :=
  ⟨[w1Church0, w1Church1], [x7Caller, w7Target0, x7Target],
   [⟨20, "Secretary", 2⟩, ⟨21, "Clerk", 3⟩], [⟨100, 2, 20, 0⟩], [], [], []⟩

theorem user_role_post_gate_then_validate_witness :
    userRolePost w7Store x7Caller 2 20 0 = .duplicate ∧
    userRolePost w7Store x7Caller 3 20 0 = .userNotInChurch ∧
    userRolePost w7Store x7Caller 3 20 1 = .forbidden ∧
    userRolePost w7Store x7Caller 2 21 0 =
      .created { w7Store with userRoles := w7Store.userRoles ++
          [nextUserRole w7Store w7Target0 ⟨21, "Clerk", 3⟩ w1Church0] }
        (nextUserRole w7Store w7Target0 ⟨21, "Clerk", 3⟩ w1Church0) := by
  refine ⟨?_, ?_, ?_, ?_⟩
  · exact (user_role_post_gate_then_validate w7Store x7Caller 2 20 0
      w7Target0 ⟨20, "Secretary", 2⟩ w1Church0 (by decide) (by decide)
      (by decide)).2.2.1 (Or.inr (by decide)) (by decide)
      ⟨⟨100, 2, 20, 0⟩, by decide, by decide, by decide, by decide⟩
  · exact (user_role_post_gate_then_validate w7Store x7Caller 3 20 0
      x7Target ⟨20, "Secretary", 2⟩ w1Church0 (by decide) (by decide)
      (by decide)).2.1 (Or.inr (by decide)) (by decide)
  · exact (user_role_post_gate_then_validate w7Store x7Caller 3 20 1
      x7Target ⟨20, "Secretary", 2⟩ w1Church1 (by decide) (by decide)
      (by decide)).1 (by decide) (by decide)
  · exact (user_role_post_gate_then_validate w7Store x7Caller 2 21 0
      w7Target0 ⟨21, "Clerk", 3⟩ w1Church0 (by decide) (by decide)
      (by decide)).2.2.2 (Or.inr (by decide)) (by decide) (by decide)

/-! ### C8: role deletion while referenced -/

/-- C8: for a super-scope caller (role deletion is gated on super
scope), deleting a role that at least one account-role assignment
references fails with the in-use rejection (`Conflict` in the spec's
taxonomy) and makes no store change, so the role remains; deleting a
role that no assignment references succeeds and removes every role row
with that key from the store. -/
theorem role_delete_conflict_while_referenced
    (s : Store) (caller : User) (pk : Nat) (r : Role)
    (hadm : caller.is_platform_admin = true)
    (hr : s.roles.find? (fun x => x.id == pk) = some r) :
    ((∃ ur ∈ s.userRoles, ur.role = pk) →
      roleDelete s caller pk = .inUse) ∧
    ((∀ ur ∈ s.userRoles, ur.role ≠ pk) →
      roleDelete s caller pk =
        .deleted { s with roles := s.roles.filter fun r2 => !(r2.id == pk) } ∧
      ∀ r2 ∈ s.roles.filter (fun r2 => !(r2.id == pk)), r2.id ≠ pk) := by
  have hrid : r.id = pk := by
    have := List.find?_some hr
    simpa using this
  constructor
  · intro ⟨ur, hmem, hrole⟩
    have hany : s.userRoles.any (fun ur => ur.role == r.id) = true := by
      rw [List.any_eq_true]
      exact ⟨ur, hmem, by simp [hrole, hrid]⟩
    simp [roleDelete, hadm, hr, hany]
  · intro hnone
    have hany : s.userRoles.any (fun ur => ur.role == r.id) = false := by
      rw [List.any_eq_false]
      intro ur hmem
      simp [hrid, hnone ur hmem]
    refine ⟨by simp [roleDelete, hadm, hr, hany], ?_⟩
    intro r2 hmem
    have := (List.mem_filter.mp hmem).2
    simpa using this

/-! ### Concrete fixtures for the C8 witness -/

def w8Admin : User :=
  ⟨0, "u0", "root@x.com", "pw", none, none, true, true, true, none⟩

def w8Referenced : Store :=
  ⟨[w1Church0], [w8Admin, x7Caller], [⟨20, "Secretary", 2⟩],
   [⟨100, 1, 20, 0⟩], [], [], []⟩

def w8Unreferenced : Store :=
  ⟨[w1Church0], [w8Admin, x7Caller], [⟨20, "Secretary", 2⟩], [], [], [], []⟩

theorem role_delete_conflict_while_referenced_witness :
    roleDelete w8Referenced w8Admin 20 = .inUse ∧
    roleDelete w8Unreferenced w8Admin 20 =
      .deleted { w8Unreferenced with
        roles := w8Unreferenced.roles.filter fun r2 => !(r2.id == 20) } := by
  constructor
  · exact (role_delete_conflict_while_referenced w8Referenced w8Admin 20
      ⟨20, "Secretary", 2⟩ (by decide) (by decide)).1
      ⟨⟨100, 1, 20, 0⟩, by decide, by decide⟩
  · exact ((role_delete_conflict_while_referenced w8Unreferenced w8Admin 20
      ⟨20, "Secretary", 2⟩ (by decide) (by decide)).2 (by decide)).1

/-! ### C9 and C10: visitor-to-member conversion -/

lemma find?_map_preserving_id (l : List Visitor) (k : Nat)
    (f : Visitor → Visitor) (hf : ∀ w, (f w).id = w.id) :
    (l.map f).find? (fun w => w.id == k) =
      (l.find? (fun w => w.id == k)).map f := by
  induction l with
  | nil => rfl
  | cons a t ih =>
    simp only [List.map_cons]
    by_cases h : (a.id == k) = true
    · have h2 : ((f a).id == k) = true := by rw [hf]; exact h
      have e1 : (f a :: t.map f).find? (fun w => w.id == k) = some (f a) :=
        List.find?_cons_of_pos _ h2
      have e2 : (a :: t).find? (fun w => w.id == k) = some a :=
        List.find?_cons_of_pos _ h
      rw [e1, e2]
      rfl
    · have h2 : ¬((f a).id == k) = true := by rw [hf]; exact h
      have e1 : (f a :: t.map f).find? (fun w => w.id == k) =
          (t.map f).find? (fun w => w.id == k) :=
        List.find?_cons_of_neg _ h2
      have e2 : (a :: t).find? (fun w => w.id == k) =
          t.find? (fun w => w.id == k) :=
        List.find?_cons_of_neg _ h
      rw [e1, e2, ih]

/-- C9: converting a not-yet-converted visitor named `"Jane Doe"` with a
given `member_since` yields a member with first name `"Jane"`, last name
`"Doe"`, membership status `"NEW_CONVERT"` and that `member_since`,
marks the source visitor converted in the resulting store, and any
second conversion attempt on the same visitor identifier fails with the
already-converted validation error (making no further store change). -/
theorem convert_jane_doe
    (s : Store) (caller : User) (inp : ConvertInput) (v : Visitor) (cid : Nat)
    (hv : s.visitors.find? (fun w => w.id == inp.visitor_id) = some v)
    (hnc : v.converted_to_member = false)
    (hname : v.full_name = "Jane Doe")
    (hch : caller.church = some cid) :
    convertVisitor s caller inp =
      .created (convertStore s cid v inp) (convertedMember s cid v inp) ∧
    (convertedMember s cid v inp).first_name = "Jane" ∧
    (convertedMember s cid v inp).last_name = "Doe" ∧
    (convertedMember s cid v inp).membership_status = "NEW_CONVERT" ∧
    (convertedMember s cid v inp).member_since = inp.member_since ∧
    (convertStore s cid v inp).visitors.find?
        (fun w => w.id == inp.visitor_id) =
      some { v with converted_to_member := true } ∧
    (∀ caller2 inp2, inp2.visitor_id = inp.visitor_id →
      convertVisitor (convertStore s cid v inp) caller2 inp2 =
        .alreadyConverted) := by
  have hvid : (v.id == inp.visitor_id) = true := by
    simpa using List.find?_some hv
  have hfpres : ∀ w : Visitor,
      ((if w.id == v.id then { w with converted_to_member := true }
        else w) : Visitor).id = w.id := by
    intro w
    by_cases h : (w.id == v.id) = true <;> simp [h]
  have hfound : (convertStore s cid v inp).visitors.find?
      (fun w => w.id == inp.visitor_id) =
      some { v with converted_to_member := true } := by
    simp only [convertStore]
    rw [find?_map_preserving_id _ _ _ hfpres, hv]
    simp
  refine ⟨by simp [convertVisitor, hv, hnc, hch], ?_, ?_, rfl, rfl, hfound, ?_⟩
  · show splitFirstWord v.full_name = "Jane"
    rw [hname]; decide
  · show splitRestWords v.full_name = "Doe"
    rw [hname]; decide
  · intro caller2 inp2 hid
    unfold convertVisitor
    rw [hid, hfound]
    rfl

/-! ### Concrete fixtures for the C9 witness -/

def w9Caller : User :=
  ⟨1, "u1", "sec@x.com", "pw", some 0, none, true, false, false, none⟩

def w9Visitor : Visitor :=
  ⟨30, 0, "Jane Doe", none, "+233501234567", none, none, 10, false⟩

def w9Store : Store :=
  ⟨[w1Church0], [w9Caller], [], [], [], [], [w9Visitor]⟩

def w9Inp : ConvertInput := ⟨30, 200, none, none⟩

theorem convert_jane_doe_witness :
    convertVisitor w9Store w9Caller w9Inp =
      .created (convertStore w9Store 0 w9Visitor w9Inp)
        (convertedMember w9Store 0 w9Visitor w9Inp) ∧
    (convertedMember w9Store 0 w9Visitor w9Inp).first_name = "Jane" ∧
    (convertedMember w9Store 0 w9Visitor w9Inp).last_name = "Doe" ∧
    (convertedMember w9Store 0 w9Visitor w9Inp).membership_status =
      "NEW_CONVERT" ∧
    convertVisitor (convertStore w9Store 0 w9Visitor w9Inp) w9Caller w9Inp =
      .alreadyConverted := by
  have h := convert_jane_doe w9Store w9Caller w9Inp w9Visitor 0
    (by decide) (by decide) (by decide) (by decide)
  exact ⟨h.1, h.2.1, h.2.2.1, h.2.2.2.1, h.2.2.2.2.2.2 w9Caller w9Inp rfl⟩

/-- C10: the conversion endpoint never compares the visitor's owning
tenant with the caller's tenant: for every tenant-bound caller and
every existing not-yet-converted visitor — whatever tenant owns the
visitor — the conversion succeeds, and both the created member and the
created member location are bound to the caller's tenant `cid`, not to
the visitor's owning tenant. -/
theorem convert_ignores_visitor_tenant
    (s : Store) (caller : User) (inp : ConvertInput) (v : Visitor) (cid : Nat)
    (hv : s.visitors.find? (fun w => w.id == inp.visitor_id) = some v)
    (hnc : v.converted_to_member = false)
    (hch : caller.church = some cid) :
    convertVisitor s caller inp =
      .created (convertStore s cid v inp) (convertedMember s cid v inp) ∧
    (convertedMember s cid v inp).church = cid ∧
    (convertedLocation s cid v inp).church = cid ∧
    (convertStore s cid v inp).members =
      s.members ++ [convertedMember s cid v inp] ∧
    (convertStore s cid v inp).memberLocations =
      s.memberLocations ++ [convertedLocation s cid v inp] := by
  exact ⟨by simp [convertVisitor, hv, hnc, hch], rfl, rfl, rfl, rfl⟩

/-! ### Concrete fixtures for the C10 witness: the visitor belongs to
tenant 1 while the caller is bound to tenant 0 -/

def wTenCaller : User :=
  ⟨1, "u1", "sec@x.com", "pw", some 0, none, true, false, false, none⟩

def wTenVisitor : Visitor :=
  ⟨31, 1, "Ama Mensah", some "FEMALE", "+233507654321", none,
   some "Accra", 12, false⟩

def wTenStore : Store :=
  ⟨[w1Church0, w1Church1], [wTenCaller], [], [], [], [], [wTenVisitor]⟩

def wTenInp : ConvertInput := ⟨31, 300, none, none⟩

theorem convert_ignores_visitor_tenant_witness :
    wTenVisitor.church = 1 ∧
    wTenCaller.church = some 0 ∧
    convertVisitor wTenStore wTenCaller wTenInp =
      .created (convertStore wTenStore 0 wTenVisitor wTenInp)
        (convertedMember wTenStore 0 wTenVisitor wTenInp) ∧
    (convertedMember wTenStore 0 wTenVisitor wTenInp).church = 0 ∧
    (convertedLocation wTenStore 0 wTenVisitor wTenInp).church = 0 := by
  have h := convert_ignores_visitor_tenant wTenStore wTenCaller wTenInp
    wTenVisitor 0 (by decide) (by decide) (by decide)
  exact ⟨by decide, by decide, h.1, h.2.1, h.2.2.1⟩

end ChurchSaas
